import Mathlib

/-!
Shallow embedding of the `win_run` crate (src/lib.rs,
src/safe_windows_bindings/low_level.rs, src/safe_windows_bindings/high_level.rs).

The OS is modelled as an oracle record `OS` fixing the outcome of every
Windows primitive (CloseHandle, OpenProcess, OpenProcessToken,
DuplicateTokenEx, WTSGetActiveConsoleSessionId, WTSQueryUserToken,
GetTokenInformation, CreateProcessAsUserW) and the black-box `sysinfo`
process-name lookup.  Each wrapper function is translated from the Rust
source line by line; besides its `Except String` result it returns the
chronological list of OS calls it performed (an `OsCall` trace), so that
handle-lifetime properties ("closed exactly once", "no further OS calls")
are statable.  Token handles carry, as ghost state maintained by the OS
model, the access rights and token type the OS granted them: the documented
semantics of `DuplicateTokenEx` and `OpenProcessToken` is that a successful
call yields a handle with exactly the requested access mask.
-/

set_option maxHeartbeats 1000000

namespace WinRun

/-- Token access-mask bits used by the crate: `TOKEN_QUERY`,
`TOKEN_DUPLICATE`, `TOKEN_ASSIGN_PRIMARY`. -/
structure TOKEN_ACCESS_MASK where
  query : Bool
  duplicate : Bool
  assignPrimary : Bool
deriving DecidableEq

/-- The `TOKEN_QUERY` access bit. -/
def TOKEN_QUERY : TOKEN_ACCESS_MASK := ⟨true, false, false⟩

/-- The `TOKEN_DUPLICATE` access bit. -/
def TOKEN_DUPLICATE : TOKEN_ACCESS_MASK := ⟨false, true, false⟩

/-- The `TOKEN_ASSIGN_PRIMARY` access bit. -/
def TOKEN_ASSIGN_PRIMARY : TOKEN_ACCESS_MASK := ⟨false, false, true⟩

/-- Bitwise-or of two access masks (the `|` operator on `TOKEN_ACCESS_MASK`). -/
def TOKEN_ACCESS_MASK.or (a b : TOKEN_ACCESS_MASK) : TOKEN_ACCESS_MASK :=
  ⟨a.query || b.query, a.duplicate || b.duplicate, a.assignPrimary || b.assignPrimary⟩

/-- `SECURITY_IMPERSONATION_LEVEL` from the Windows API. -/
inductive SECURITY_IMPERSONATION_LEVEL where
  | securityAnonymous
  | securityIdentification
  | securityImpersonation
  | securityDelegation
deriving DecidableEq

/-- `TOKEN_TYPE` from the Windows API. -/
inductive TOKEN_TYPE where
  | tokenPrimary
  | tokenImpersonation
deriving DecidableEq

/-- Whether a requested token type is the primary type. -/
def token_type_is_primary : TOKEN_TYPE → Bool
  | TOKEN_TYPE.tokenPrimary => true
  | TOKEN_TYPE.tokenImpersonation => false

/-- A token `HANDLE` together with the ghost state the OS keeps for it:
the access rights it was granted and whether it is a primary token. -/
structure Handle where
  id : Nat
  rights : TOKEN_ACCESS_MASK
  primary : Bool
deriving DecidableEq

/-- One OS call performed by a wrapper, recorded in a trace. -/
inductive OsCall where
  | close (h : Nat)
  | openProcess (pid : Nat)
  | openProcessToken (processHandle : Nat)
  | duplicateToken (sourceHandle : Nat)
  | wtsGetSession
  | wtsQueryToken (sessionId : Nat)
  | getTokenInfo (tokenHandle : Nat)
  | createProcess (token : Nat)
      (applicationName commandLine currentDirectory desktop : String)
deriving DecidableEq

/-- The OS oracle: outcome of each Windows primitive and of the black-box
`sysinfo` process lookup.  Handle-valued fields are the fresh handles the OS
hands out on the corresponding successful call; error-text fields are the
platform `last_os_error` texts. -/
structure OS where
  closeOk : Nat → Bool
  closeErr : Nat → String
  openProcessOk : Bool
  openProcessHandle : Nat
  openProcessErr : String
  openProcessTokenOk : Bool
  openProcessTokenHandle : Nat
  openProcessTokenPrimary : Bool
  openProcessTokenErr : String
  duplicateOk : Bool
  duplicateHandle : Nat
  duplicateErr : String
  activeConsoleSessionId : Nat
  wtsQueryOk : Bool
  wtsTokenHandle : Nat
  wtsTokenRights : TOKEN_ACCESS_MASK
  wtsTokenPrimary : Bool
  wtsErr : String
  getTokenInfoOk : Bool
  linkedTokenHandle : Nat
  linkedTokenRights : TOKEN_ACCESS_MASK
  linkedTokenPrimary : Bool
  getTokenInfoErr : String
  createOk : Bool
  createErr : String
  threadHandle : Nat
  processHandle : Nat
  processLookup : String → Option Nat

/-- `STARTUPINFOW`: only the fields the crate sets. -/
structure STARTUPINFOW where
  cb : Nat
  lpDesktop : String
deriving DecidableEq

/-- `PROCESS_INFORMATION`: the two handles the crate closes. -/
structure PROCESS_INFORMATION where
  hProcess : Nat
  hThread : Nat
deriving DecidableEq

/-- The error messages contributed by one fallible step: what
`errors.push(err)` inside an `if let Err(err)` adds. -/
def errList : Except String Unit → List String
  | Except.ok _ => []
  | Except.error e => [e]

/-- Rust `Vec::join("\n")` on the collected error messages. -/
def join_with_newlines : List String → String
  | [] => ""
  | [e] => e
  | e :: rest => e ++ "\n" ++ join_with_newlines rest

/-- `close_token` (low_level.rs 16-25): `CloseHandle`, error formatted from
the platform last error. -/
def close_token (os : OS) (hObject : Nat) : Except String Unit × List OsCall :=
  if os.closeOk hObject then
    (Except.ok (), [OsCall.close hObject])
  else
    (Except.error ("Unable to close handle: " ++ os.closeErr hObject),
     [OsCall.close hObject])

/-- `open_process` (low_level.rs 28-37): `OpenProcess` by pid. -/
def open_process (os : OS) (dwDesiredAccess : Nat) (bInheritHandle : Bool)
    (pid : Nat) : Except String Nat × List OsCall :=
  if os.openProcessOk then
    (Except.ok os.openProcessHandle, [OsCall.openProcess pid])
  else
    (Except.error ("Could not obtain process: " ++ os.openProcessErr),
     [OsCall.openProcess pid])

/-- `open_process_token` (low_level.rs 42-71).  On failure it closes the
provided process handle and the (still default, id 0) token handle,
aggregating every error; on success it still closes the process handle,
propagating a close failure via `?`. -/
def open_process_token (os : OS) (processHandle : Nat)
    (desiredAccess : TOKEN_ACCESS_MASK) : Except String Handle × List OsCall :=
  if os.openProcessTokenOk then
    match close_token os processHandle with
    | (Except.ok _, t) =>
        (Except.ok ⟨os.openProcessTokenHandle, desiredAccess, os.openProcessTokenPrimary⟩,
         OsCall.openProcessToken processHandle :: t)
    | (Except.error e, t) =>
        (Except.error e, OsCall.openProcessToken processHandle :: t)
  else
    let e0 := "Unable to open process token: " ++ os.openProcessTokenErr
    let c1 := close_token os processHandle
    let c2 := close_token os 0
    (Except.error (join_with_newlines (e0 :: (errList c1.1 ++ errList c2.1))),
     OsCall.openProcessToken processHandle :: (c1.2 ++ c2.2))

/-- `duplicate_token_ex` (low_level.rs 76-117).  On failure it closes the
source handle and the (default, id 0) new handle, aggregating every error;
on success it closes the source handle, propagating a close failure via `?`,
and returns a fresh handle carrying exactly the requested access mask and
requested token type. -/
def duplicate_token_ex (os : OS) (hExistingToken : Handle)
    (dwDesiredAccess : TOKEN_ACCESS_MASK) (lpTokenAttributes : Option Unit)
    (impersonationLevel : SECURITY_IMPERSONATION_LEVEL) (tokenType : TOKEN_TYPE) :
    Except String Handle × List OsCall :=
  if os.duplicateOk then
    match close_token os hExistingToken.id with
    | (Except.ok _, t) =>
        (Except.ok ⟨os.duplicateHandle, dwDesiredAccess, token_type_is_primary tokenType⟩,
         OsCall.duplicateToken hExistingToken.id :: t)
    | (Except.error e, t) =>
        (Except.error e, OsCall.duplicateToken hExistingToken.id :: t)
  else
    let e0 := "Unable to duplicate token: " ++ os.duplicateErr
    let c1 := close_token os hExistingToken.id
    let c2 := close_token os 0
    (Except.error (join_with_newlines (e0 :: (errList c1.1 ++ errList c2.1))),
     OsCall.duplicateToken hExistingToken.id :: (c1.2 ++ c2.2))

/-- `wts_get_active_console_session_id` (low_level.rs 120-122). -/
def wts_get_active_console_session_id (os : OS) : Nat × List OsCall :=
  (os.activeConsoleSessionId, [OsCall.wtsGetSession])

/-- `wts_query_user_token` (low_level.rs 125-147).  On failure it closes the
(default, id 0) token handle and aggregates the errors. -/
def wts_query_user_token (os : OS) (sessionId : Nat) :
    Except String Handle × List OsCall :=
  if os.wtsQueryOk then
    (Except.ok ⟨os.wtsTokenHandle, os.wtsTokenRights, os.wtsTokenPrimary⟩,
     [OsCall.wtsQueryToken sessionId])
  else
    let e0 := "Unable to obtain current user handle: " ++ os.wtsErr
    let c1 := close_token os 0
    (Except.error (join_with_newlines (e0 :: errList c1.1)),
     OsCall.wtsQueryToken sessionId :: c1.2)

/-- The zero-initialized `TOKEN_LINKED_TOKEN` buffer of
`add_admin_privileges_to_token`: a null linked-token handle. -/
def TOKEN_LINKED_TOKEN_zeroed : Handle := ⟨0, ⟨false, false, false⟩, false⟩

/-- `get_token_information` (low_level.rs 150-185).  Returns the result
together with the `TOKEN_LINKED_TOKEN` buffer content (written by the OS on
query success, otherwise still zeroed).  The supplied token is closed on
every path; a query failure and a close failure are both collected and
newline-joined. -/
def get_token_information (os : OS) (token : Handle) :
    (Except String Unit × Handle) × List OsCall :=
  let buffer :=
    if os.getTokenInfoOk then
      (⟨os.linkedTokenHandle, os.linkedTokenRights, os.linkedTokenPrimary⟩ : Handle)
    else TOKEN_LINKED_TOKEN_zeroed
  let e0 : List String :=
    if os.getTokenInfoOk then []
    else ["Unable to get token information: " ++ os.getTokenInfoErr]
  let c1 := close_token os token.id
  let errors := e0 ++ errList c1.1
  ((if errors.isEmpty then Except.ok () else Except.error (join_with_newlines errors),
    buffer),
   OsCall.getTokenInfo token.id :: c1.2)

/-- `create_process_as_user_w` (low_level.rs 189-245).  On creation success
the thread handle, the process handle and the token are each closed once, in
that order, every close failure being collected and newline-joined.  On
creation failure the source returns the formatted creation error at once:
no handle is closed on that path (the pushed `errors` vector is dead code
there). -/
def create_process_as_user_w (os : OS) (token : Handle)
    (applicationName : String) (commandLine : String)
    (processAttributes : Option Unit) (threadAttributes : Option Unit)
    (inheritHandle : Bool) (creationFlags : Nat) (environment : Option Unit)
    (currentDirectory : String) (startupInfo : STARTUPINFOW)
    (processInformation : PROCESS_INFORMATION) :
    Except String Unit × List OsCall :=
  let ev := OsCall.createProcess token.id applicationName commandLine
      currentDirectory startupInfo.lpDesktop
  if os.createOk then
    let filled : PROCESS_INFORMATION := ⟨os.processHandle, os.threadHandle⟩
    let c1 := close_token os filled.hThread
    let c2 := close_token os filled.hProcess
    let c3 := close_token os token.id
    let errors := errList c1.1 ++ errList c2.1 ++ errList c3.1
    (if errors.isEmpty then Except.ok ()
     else Except.error (join_with_newlines errors),
     ev :: (c1.2 ++ c2.2 ++ c3.2))
  else
    (Except.error ("Unable to create process: " ++ os.createErr), [ev])

/-- `get_process_pid` (high_level.rs 19-27).  The `sysinfo` enumeration is an
external black box (out of scope per the spec): the oracle returns the pid of
the first process matching the name, or none. -/
def get_process_pid (os : OS) (processName : String) : Except String Nat :=
  match os.processLookup processName with
  | none => Except.error ("No running processes by the name: " ++ processName)
  | some pid => Except.ok pid

/-- The access mask `TOKEN_QUERY | TOKEN_DUPLICATE | TOKEN_ASSIGN_PRIMARY`
requested by both `get_process_token` and `get_current_user_token`. -/
def access_flags : TOKEN_ACCESS_MASK :=
  (TOKEN_QUERY.or TOKEN_DUPLICATE).or TOKEN_ASSIGN_PRIMARY

/-- `get_process_token` (high_level.rs 30-51): open the process, open its
token with the three access rights, duplicate it as a primary token. -/
def get_process_token (os : OS) (pid : Nat) : Except String Handle × List OsCall :=
  match open_process os 1024 false pid with
  | (Except.error e, t0) => (Except.error e, t0)
  | (Except.ok processHandle, t0) =>
    match open_process_token os processHandle access_flags with
    | (Except.error e, t1) => (Except.error e, t0 ++ t1)
    | (Except.ok processTokenHandle, t1) =>
      let d := duplicate_token_ex os processTokenHandle access_flags none
          SECURITY_IMPERSONATION_LEVEL.securityImpersonation TOKEN_TYPE.tokenPrimary
      (d.1, t0 ++ t1 ++ d.2)

/-- `get_current_user_token` (high_level.rs 54-72): active console session,
its user token, duplicated as a primary token with the three access rights. -/
def get_current_user_token (os : OS) : Except String Handle × List OsCall :=
  let s := wts_get_active_console_session_id os
  match wts_query_user_token os s.1 with
  | (Except.error e, t1) => (Except.error e, s.2 ++ t1)
  | (Except.ok currentUserToken, t1) =>
    let d := duplicate_token_ex os currentUserToken access_flags none
        SECURITY_IMPERSONATION_LEVEL.securityImpersonation TOKEN_TYPE.tokenPrimary
    (d.1, s.2 ++ t1 ++ d.2)

/-- `add_admin_privileges_to_token` (high_level.rs 75-95): query the
`TokenLinkedToken` information of the token and return the `LinkedToken`
field of the buffer directly; on query failure wrap the error. -/
def add_admin_privileges_to_token (os : OS) (token : Handle) :
    Except String Handle × List OsCall :=
  match get_token_information os token with
  | ((Except.error err, _), t) =>
      (Except.error ("Could not elevate process token: " ++ err), t)
  | ((Except.ok _, tokenLinked), t) => (Except.ok tokenLinked, t)

/-- `U16CString::from_str`: fails exactly when the string holds an interior
nul; otherwise the wide string carries the same content. -/
def u16cstring_from_str (s : String) : Except String String :=
  if s.data.contains (Char.ofNat 0) then
    Except.error ("Cannot convert string to U16CString: " ++ "nul value found")
  else Except.ok s

/-- `create_process_with_token` (high_level.rs 98-156): convert the four
strings to wide form (returning the conversion error at once on failure,
without touching the token), build the startup info with the desktop name,
call `create_process_as_user_w`, and return its error (collected into the
`errors` vector and newline-joined) or unit. -/
def create_process_with_token (os : OS) (token : Handle)
    (applicationName commandLine currentDirectory desktop : String) :
    Except String Unit × List OsCall :=
  match u16cstring_from_str applicationName with
  | Except.error e => (Except.error e, [])
  | Except.ok app =>
    match u16cstring_from_str commandLine with
    | Except.error e => (Except.error e, [])
    | Except.ok cmd =>
      match u16cstring_from_str currentDirectory with
      | Except.error e => (Except.error e, [])
      | Except.ok dir =>
        match u16cstring_from_str desktop with
        | Except.error e => (Except.error e, [])
        | Except.ok dsk =>
          let startupInfo : STARTUPINFOW := ⟨104, dsk⟩
          let processInformation : PROCESS_INFORMATION := ⟨0, 0⟩
          match create_process_as_user_w os token app cmd none none false 0 none
              dir startupInfo processInformation with
          | (Except.error err, t) =>
              (Except.error (join_with_newlines [err]), t)
          | (Except.ok _, t) => (Except.ok (), t)

/-- `Elevation` (lib.rs 46-52). -/
inductive Elevation where
  | user
  | admin
  | localSystem
deriving DecidableEq

/-- `Desktop` (lib.rs 54-59). -/
inductive Desktop where
  | default
  | secure
deriving DecidableEq

/-- `ProcessBuilder` (lib.rs 71-82). -/
structure ProcessBuilder where
  path : String
  args : String
  directory : String
  desktop : Desktop
  elevation : Elevation

/-- The token-resolution `match self.elevation` block of
`ProcessBuilder::run` (lib.rs 145-156). -/
def resolve_token (os : OS) (elevation : Elevation) :
    Except String Handle × List OsCall :=
  match elevation with
  | Elevation.user => get_current_user_token os
  | Elevation.admin =>
    match get_current_user_token os with
    | (Except.error e, t) => (Except.error e, t)
    | (Except.ok currentUserToken, t) =>
      let a := add_admin_privileges_to_token os currentUserToken
      (a.1, t ++ a.2)
  | Elevation.localSystem =>
    match get_process_pid os "winlogon" with
    | Except.error e => (Except.error e, [])
    | Except.ok processPid => get_process_token os processPid

/-- `ProcessBuilder::run` (lib.rs 133-165): assemble the command line as
`path ++ " " ++ args`, map the desktop selector to its native name, resolve
the token for the selected elevation, and launch. -/
def ProcessBuilder.run (os : OS) (b : ProcessBuilder) :
    Except String Unit × List OsCall :=
  let applicationName := b.path
  let commandLine := b.path ++ " " ++ b.args
  let currentDirectory := b.directory
  let desktop :=
    match b.desktop with
    | Desktop.default => ""
    | Desktop.secure => "WinSta0\\Winlogon"
  match resolve_token os b.elevation with
  | (Except.error e, t) => (Except.error e, t)
  | (Except.ok token, t) =>
    let c := create_process_with_token os token applicationName commandLine
        currentDirectory desktop
    (c.1, t ++ c.2)

/-- Number of times a handle id is closed in a trace. -/
def countClose (h : Nat) (t : List OsCall) : Nat :=
  t.countP (fun e => decide (e = OsCall.close h))

/-- `needle` occurs as a substring of `msg`. -/
def mentions (needle msg : String) : Prop :=
  ∃ pre post, msg = pre ++ (needle ++ post)

/-- Whether an OS call is a `CreateProcessAsUserW` invocation. -/
def isCreate : OsCall → Bool
  | OsCall.createProcess _ _ _ _ _ => true
  | _ => false

/-- An oracle on which every OS primitive succeeds. -/
def osAllOk : OS where
  closeOk := fun _ => true
  closeErr := fun _ => "close failed"
  openProcessOk := true
  openProcessHandle := 11
  openProcessErr := "open process failed"
  openProcessTokenOk := true
  openProcessTokenHandle := 21
  openProcessTokenPrimary := true
  openProcessTokenErr := "open token failed"
  duplicateOk := true
  duplicateHandle := 12
  duplicateErr := "duplicate failed"
  activeConsoleSessionId := 1
  wtsQueryOk := true
  wtsTokenHandle := 31
  wtsTokenRights := ⟨true, true, true⟩
  wtsTokenPrimary := true
  wtsErr := "wts failed"
  getTokenInfoOk := true
  linkedTokenHandle := 77
  linkedTokenRights := ⟨true, true, true⟩
  linkedTokenPrimary := true
  getTokenInfoErr := "query failed"
  createOk := true
  createErr := "oserr"
  threadHandle := 2
  processHandle := 3
  processLookup := fun _ => some 4

/-- Oracle on which only `CreateProcessAsUserW` fails. -/
def osCreateFail : OS := { osAllOk with createOk := false }

/-- Oracle on which `OpenProcessToken` fails and only the null handle can be
closed. -/
def osC4a : OS :=
  { osAllOk with
    openProcessTokenOk := false
    openProcessTokenErr := "tokerr"
    closeOk := fun n => n == 0 }

/-- Oracle on which every `CloseHandle` fails. -/
def osC4b : OS := { osAllOk with closeOk := fun _ => false }

/-- Oracle on which only handle 5 cannot be closed. -/
def osC4c : OS := { osAllOk with closeOk := fun n => !(n == 5) }

/-- Oracle on which the linked-token query fails. -/
def osC5 : OS := { osAllOk with getTokenInfoOk := false }

/-- Oracle on which `DuplicateTokenEx` fails. -/
def osC6 : OS := { osAllOk with duplicateOk := false }

/-- Oracle on which no process-name lookup matches. -/
def osC7 : OS := { osAllOk with processLookup := fun _ => none }

/-- Oracle on which every call succeeds but the OS-supplied linked token
carries no access rights and is not a primary token. -/
def osBadLinked : OS :=
  { osAllOk with
    linkedTokenHandle := 77
    linkedTokenRights := ⟨false, false, false⟩
    linkedTokenPrimary := false }

/-- A LocalSystem launch request. -/
def bC7 : ProcessBuilder :=
  ⟨"C:\\x.exe", "", "C:\\", Desktop.default, Elevation.localSystem⟩

/-- The User-mode launch request of the spec's end-to-end scenario. -/
def bC8 : ProcessBuilder :=
  ⟨"C:\\tools\\app.exe", "-v", "C:\\tools", Desktop.default, Elevation.user⟩

/-- `close_token` performs exactly one `CloseHandle` call. -/
theorem close_token_trace (os : OS) (h : Nat) :
    (close_token os h).2 = [OsCall.close h] := by
  unfold close_token
  cases hc : os.closeOk h <;> simp [hc]

/-- Trace of `duplicate_token_ex`: the duplication call, the close of the
source, and on failure also the close of the default new handle. -/
theorem duplicate_token_ex_trace (os : OS) (src : Handle) (d : TOKEN_ACCESS_MASK)
    (a : Option Unit) (lvl : SECURITY_IMPERSONATION_LEVEL) (ty : TOKEN_TYPE) :
    (duplicate_token_ex os src d a lvl ty).2 =
      if os.duplicateOk then [OsCall.duplicateToken src.id, OsCall.close src.id]
      else [OsCall.duplicateToken src.id, OsCall.close src.id, OsCall.close 0] := by
  unfold duplicate_token_ex
  cases hd : os.duplicateOk <;> cases hc : os.closeOk src.id <;>
    cases h0 : os.closeOk 0 <;> simp [close_token, hd, hc, h0]

/-- A successful duplication returns the fresh OS handle carrying exactly the
requested access mask and requested token type. -/
theorem duplicate_token_ex_ok_shape (os : OS) (src : Handle) (d : TOKEN_ACCESS_MASK)
    (a : Option Unit) (lvl : SECURITY_IMPERSONATION_LEVEL) (ty : TOKEN_TYPE)
    (h : Handle) (hok : (duplicate_token_ex os src d a lvl ty).1 = Except.ok h) :
    h = ⟨os.duplicateHandle, d, token_type_is_primary ty⟩ := by
  unfold duplicate_token_ex at hok
  cases hd : os.duplicateOk <;> rw [hd] at hok
  · simp at hok
  · cases hc : os.closeOk src.id <;> simp [close_token, hc] at hok
    exact hok.symm

/-- Trace of `wts_query_user_token`. -/
theorem wts_query_user_token_trace (os : OS) (sid : Nat) :
    (wts_query_user_token os sid).2 =
      if os.wtsQueryOk then [OsCall.wtsQueryToken sid]
      else [OsCall.wtsQueryToken sid, OsCall.close 0] := by
  unfold wts_query_user_token
  cases hw : os.wtsQueryOk <;> cases h0 : os.closeOk 0 <;> simp [close_token, hw, h0]

/-- Trace of `open_process_token`. -/
theorem open_process_token_trace (os : OS) (ph : Nat) (d : TOKEN_ACCESS_MASK) :
    (open_process_token os ph d).2 =
      if os.openProcessTokenOk then [OsCall.openProcessToken ph, OsCall.close ph]
      else [OsCall.openProcessToken ph, OsCall.close ph, OsCall.close 0] := by
  unfold open_process_token
  cases ht : os.openProcessTokenOk <;> cases hc : os.closeOk ph <;>
    cases h0 : os.closeOk 0 <;> simp [close_token, ht, hc, h0]

/-- `get_token_information` always performs exactly the query call followed by
the close of the supplied token. -/
theorem get_token_information_trace (os : OS) (token : Handle) :
    (get_token_information os token).2
      = [OsCall.getTokenInfo token.id, OsCall.close token.id] := by
  unfold get_token_information
  cases hc : os.closeOk token.id <;> simp [close_token, hc]

/-- `add_admin_privileges_to_token` performs exactly the query call followed
by the close of the supplied token: in particular no duplication. -/
theorem add_admin_trace (os : OS) (token : Handle) :
    (add_admin_privileges_to_token os token).2
      = [OsCall.getTokenInfo token.id, OsCall.close token.id] := by
  unfold add_admin_privileges_to_token
  rcases hg : get_token_information os token with ⟨⟨r, buf⟩, t⟩
  have ht : t = [OsCall.getTokenInfo token.id, OsCall.close token.id] := by
    have h0 := get_token_information_trace os token
    rw [hg] at h0
    exact h0
  cases r <;> simp [hg, ht]

/-- Trace of `create_process_as_user_w`: the creation call, then on success
the closes of the thread handle, the process handle and the token, in that
order; on failure nothing else. -/
theorem create_process_as_user_w_trace (os : OS) (token : Handle)
    (app cmd : String) (pa ta : Option Unit) (ih : Bool) (cf : Nat)
    (env : Option Unit) (dir : String) (si : STARTUPINFOW)
    (pinf : PROCESS_INFORMATION) :
    (create_process_as_user_w os token app cmd pa ta ih cf env dir si pinf).2
      = OsCall.createProcess token.id app cmd dir si.lpDesktop ::
        (if os.createOk then
          [OsCall.close os.threadHandle, OsCall.close os.processHandle,
           OsCall.close token.id]
         else []) := by
  unfold create_process_as_user_w
  cases hcr : os.createOk <;> simp [close_token_trace, hcr]

/-- A successful wide-string conversion is the identity. -/
theorem u16cstring_from_str_ok (s w : String)
    (h : u16cstring_from_str s = Except.ok w) : w = s := by
  unfold u16cstring_from_str at h
  split at h <;> simp_all

/-- `open_process` performs no process-creation call. -/
theorem open_process_no_create (os : OS) (d : Nat) (bi : Bool) (pid : Nat) :
    ∀ e ∈ (open_process os d bi pid).2, isCreate e = false := by
  unfold open_process
  split <;> simp [isCreate]

/-- `wts_query_user_token` performs no process-creation call. -/
theorem wts_query_user_token_no_create (os : OS) (sid : Nat) :
    ∀ e ∈ (wts_query_user_token os sid).2, isCreate e = false := by
  rw [wts_query_user_token_trace]
  split <;> simp [isCreate]

/-- `open_process_token` performs no process-creation call. -/
theorem open_process_token_no_create (os : OS) (ph : Nat) (d : TOKEN_ACCESS_MASK) :
    ∀ e ∈ (open_process_token os ph d).2, isCreate e = false := by
  rw [open_process_token_trace]
  split <;> simp [isCreate]

/-- `duplicate_token_ex` performs no process-creation call. -/
theorem duplicate_token_ex_no_create (os : OS) (src : Handle)
    (d : TOKEN_ACCESS_MASK) (a : Option Unit)
    (lvl : SECURITY_IMPERSONATION_LEVEL) (ty : TOKEN_TYPE) :
    ∀ e ∈ (duplicate_token_ex os src d a lvl ty).2, isCreate e = false := by
  rw [duplicate_token_ex_trace]
  split <;> simp [isCreate]

/-- Token resolution for the User mode performs no process-creation call. -/
theorem get_current_user_token_no_create (os : OS) :
    ∀ e ∈ (get_current_user_token os).2, isCreate e = false := by
  unfold get_current_user_token
  simp only [wts_get_active_console_session_id]
  rcases hw : wts_query_user_token os os.activeConsoleSessionId with ⟨r, t1⟩
  have ht1 : ∀ e ∈ t1, isCreate e = false := by
    have h0 := wts_query_user_token_no_create os os.activeConsoleSessionId
    rw [hw] at h0
    exact h0
  cases r with
  | error e =>
    intro x hx
    simp at hx
    rcases hx with rfl | hx
    · rfl
    · exact ht1 x hx
  | ok tok =>
    intro x hx
    simp at hx
    rcases hx with rfl | hx | hx
    · rfl
    · exact ht1 x hx
    · exact duplicate_token_ex_no_create os tok access_flags none
        SECURITY_IMPERSONATION_LEVEL.securityImpersonation TOKEN_TYPE.tokenPrimary x hx

/-- `get_process_token` performs no process-creation call. -/
theorem get_process_token_no_create (os : OS) (pid : Nat) :
    ∀ e ∈ (get_process_token os pid).2, isCreate e = false := by
  unfold get_process_token
  rcases hop : open_process os 1024 false pid with ⟨r0, t0⟩
  have ht0 : ∀ e ∈ t0, isCreate e = false := by
    have h0 := open_process_no_create os 1024 false pid
    rw [hop] at h0
    exact h0
  cases r0 with
  | error e =>
    intro x hx
    simp at hx
    exact ht0 x hx
  | ok ph =>
    dsimp only
    rcases hot : open_process_token os ph access_flags with ⟨r1, t1⟩
    have ht1 : ∀ e ∈ t1, isCreate e = false := by
      have h1 := open_process_token_no_create os ph access_flags
      rw [hot] at h1
      exact h1
    cases r1 with
    | error e =>
      dsimp only
      intro x hx
      rcases List.mem_append.mp hx with hx | hx
      · exact ht0 x hx
      · exact ht1 x hx
    | ok ptok =>
      dsimp only
      intro x hx
      rcases List.mem_append.mp hx with hx | hx
      · rcases List.mem_append.mp hx with hx | hx
        · exact ht0 x hx
        · exact ht1 x hx
      · exact duplicate_token_ex_no_create os ptok access_flags none
          SECURITY_IMPERSONATION_LEVEL.securityImpersonation TOKEN_TYPE.tokenPrimary x hx

/-- Token resolution performs no process-creation call in any mode. -/
theorem resolve_token_no_create (os : OS) (el : Elevation) :
    ∀ e ∈ (resolve_token os el).2, isCreate e = false := by
  cases el with
  | user => exact get_current_user_token_no_create os
  | admin =>
    unfold resolve_token
    rcases hg : get_current_user_token os with ⟨r, t⟩
    have ht : ∀ e ∈ t, isCreate e = false := by
      have h0 := get_current_user_token_no_create os
      rw [hg] at h0
      exact h0
    cases r with
    | error e =>
      intro x hx
      simp at hx
      exact ht x hx
    | ok tok =>
      intro x hx
      simp [add_admin_trace] at hx
      rcases hx with hx | rfl | rfl
      · exact ht x hx
      · rfl
      · rfl
  | localSystem =>
    unfold resolve_token
    intro x hx
    cases hl : os.processLookup "winlogon" with
    | none => simp [get_process_pid, hl] at hx
    | some pid =>
      simp [get_process_pid, hl] at hx
      exact get_process_token_no_create os pid x hx

/-- A successful User-mode resolution returns the handle produced by the
final duplication, carrying the three requested rights as a primary token. -/
theorem get_current_user_token_ok (os : OS) (h : Handle)
    (hok : (get_current_user_token os).1 = Except.ok h) :
    h = ⟨os.duplicateHandle, access_flags, true⟩ := by
  unfold get_current_user_token at hok
  simp only [wts_get_active_console_session_id] at hok
  rcases hw : wts_query_user_token os os.activeConsoleSessionId with ⟨r, t1⟩
  rw [hw] at hok
  cases r with
  | error e => simp at hok
  | ok tok =>
    simp at hok
    have h0 := duplicate_token_ex_ok_shape os tok access_flags none
      SECURITY_IMPERSONATION_LEVEL.securityImpersonation TOKEN_TYPE.tokenPrimary h hok
    simpa [token_type_is_primary] using h0

/-- A successful LocalSystem token fetch returns the handle produced by the
final duplication, carrying the three requested rights as a primary token. -/
theorem get_process_token_ok (os : OS) (pid : Nat) (h : Handle)
    (hok : (get_process_token os pid).1 = Except.ok h) :
    h = ⟨os.duplicateHandle, access_flags, true⟩ := by
  unfold get_process_token at hok
  rcases hop : open_process os 1024 false pid with ⟨r0, t0⟩
  rw [hop] at hok
  cases r0 with
  | error e => simp at hok
  | ok ph =>
    simp at hok
    rcases hot : open_process_token os ph access_flags with ⟨r1, t1⟩
    rw [hot] at hok
    cases r1 with
    | error e => simp at hok
    | ok ptok =>
      simp at hok
      have h0 := duplicate_token_ex_ok_shape os ptok access_flags none
        SECURITY_IMPERSONATION_LEVEL.securityImpersonation TOKEN_TYPE.tokenPrimary h hok
      simpa [token_type_is_primary] using h0

/-- A successful linked-token query returns exactly the OS-supplied linked
token field. -/
theorem add_admin_privileges_ok_shape (os : OS) (token : Handle) (h : Handle)
    (hok : (add_admin_privileges_to_token os token).1 = Except.ok h) :
    h = ⟨os.linkedTokenHandle, os.linkedTokenRights, os.linkedTokenPrimary⟩ := by
  unfold add_admin_privileges_to_token at hok
  cases hg : os.getTokenInfoOk <;> cases hc : os.closeOk token.id <;>
    simp [get_token_information, close_token, errList, hg, hc] at hok
  exact hok.symm

/-- Successful User-mode resolution yields the duplicated primary token. -/
theorem resolve_token_user_ok (os : OS) (h : Handle)
    (hok : (resolve_token os Elevation.user).1 = Except.ok h) :
    h = ⟨os.duplicateHandle, access_flags, true⟩ :=
  get_current_user_token_ok os h hok

/-- Successful LocalSystem-mode resolution yields the duplicated primary
token. -/
theorem resolve_token_local_system_ok (os : OS) (h : Handle)
    (hok : (resolve_token os Elevation.localSystem).1 = Except.ok h) :
    h = ⟨os.duplicateHandle, access_flags, true⟩ := by
  unfold resolve_token at hok
  cases hl : os.processLookup "winlogon" with
  | none => simp [get_process_pid, hl] at hok
  | some pid =>
    simp [get_process_pid, hl] at hok
    exact get_process_token_ok os pid h hok

/-- Successful Admin-mode resolution yields exactly the OS-supplied linked
token. -/
theorem resolve_token_admin_ok (os : OS) (h : Handle)
    (hok : (resolve_token os Elevation.admin).1 = Except.ok h) :
    h = ⟨os.linkedTokenHandle, os.linkedTokenRights, os.linkedTokenPrimary⟩ := by
  unfold resolve_token at hok
  rcases hg : get_current_user_token os with ⟨r, t⟩
  rw [hg] at hok
  cases r with
  | error e => simp at hok
  | ok tok =>
    simp at hok
    exact add_admin_privileges_ok_shape os tok h hok

/-- On a failed duplication, the returned error is the platform duplication
error possibly followed by newline-joined close errors. -/
theorem duplicate_token_ex_fail_msg (os : OS) (src : Handle)
    (d : TOKEN_ACCESS_MASK) (a : Option Unit)
    (lvl : SECURITY_IMPERSONATION_LEVEL) (ty : TOKEN_TYPE)
    (hd : os.duplicateOk = false) :
    ∃ post, (duplicate_token_ex os src d a lvl ty).1
      = Except.error ("Unable to duplicate token: " ++ (os.duplicateErr ++ post)) := by
  cases hc1 : os.closeOk src.id with
  | false =>
    cases hc0 : os.closeOk 0 with
    | false =>
      exact ⟨"\n" ++ ("Unable to close handle: " ++ (os.closeErr src.id
          ++ ("\n" ++ ("Unable to close handle: " ++ os.closeErr 0)))), by
        simp [duplicate_token_ex, close_token, errList, join_with_newlines,
          String.append_assoc, hd, hc1, hc0]⟩
    | true =>
      exact ⟨"\n" ++ ("Unable to close handle: " ++ os.closeErr src.id), by
        simp [duplicate_token_ex, close_token, errList, join_with_newlines,
          String.append_assoc, hd, hc1, hc0]⟩
  | true =>
    cases hc0 : os.closeOk 0 with
    | false =>
      exact ⟨"\n" ++ ("Unable to close handle: " ++ os.closeErr 0), by
        simp [duplicate_token_ex, close_token, errList, join_with_newlines,
          String.append_assoc, hd, hc1, hc0]⟩
    | true =>
      exact ⟨"", by
        simp [duplicate_token_ex, close_token, errList, join_with_newlines,
          String.append_assoc, String.append_empty, hd, hc1, hc0]⟩

/-- On a failed linked-token query, `add_admin_privileges_to_token` returns
the wrapped elevation error. -/
theorem add_admin_fail_msg (os : OS) (token : Handle)
    (hq : os.getTokenInfoOk = false) :
    ∃ e, (add_admin_privileges_to_token os token).1
      = Except.error ("Could not elevate process token: " ++ e) := by
  cases hc : os.closeOk token.id with
  | false =>
    exact ⟨"Unable to get token information: " ++ os.getTokenInfoErr ++ "\n"
        ++ ("Unable to close handle: " ++ os.closeErr token.id), by
      simp [add_admin_privileges_to_token, get_token_information, close_token,
        errList, join_with_newlines, hq, hc]⟩
  | true =>
    exact ⟨"Unable to get token information: " ++ os.getTokenInfoErr, by
      simp [add_admin_privileges_to_token, get_token_information, close_token,
        errList, join_with_newlines, hq, hc]⟩

/-- A string of the shape `pre ++ b ++ post` mentions `b`. -/
theorem mentions_here (pre b post : String) : mentions b (pre ++ b ++ post) :=
  ⟨pre, post, by rw [String.append_assoc]⟩

/-- A string of the shape `pre ++ b` mentions `b`. -/
theorem mentions_tail (pre b : String) : mentions b (pre ++ b) :=
  ⟨pre, "", by rw [String.append_empty]⟩

/-- The wrapped elevation error mentions the word "elevate". -/
theorem mentions_elevate (e : String) :
    mentions "elevate" ("Could not elevate process token: " ++ e) := by
  refine ⟨"Could not ", " process token: " ++ e, ?_⟩
  rw [← String.append_assoc, ← String.append_assoc]
  rfl

/-- Every `CreateProcessAsUserW` event emitted by `create_process_with_token`
carries exactly the strings it was given. -/
theorem create_process_with_token_event (os : OS) (token : Handle)
    (app cmd dir dsk : String) (tid : Nat) (a c d k : String)
    (he : OsCall.createProcess tid a c d k
      ∈ (create_process_with_token os token app cmd dir dsk).2) :
    a = app ∧ c = cmd ∧ d = dir ∧ k = dsk := by
  unfold create_process_with_token at he
  cases h1 : u16cstring_from_str app with
  | error e => rw [h1] at he; simp at he
  | ok app2 =>
    rw [h1] at he
    cases h2 : u16cstring_from_str cmd with
    | error e => rw [h2] at he; simp at he
    | ok cmd2 =>
      rw [h2] at he
      cases h3 : u16cstring_from_str dir with
      | error e => rw [h3] at he; simp at he
      | ok dir2 =>
        rw [h3] at he
        cases h4 : u16cstring_from_str dsk with
        | error e => rw [h4] at he; simp at he
        | ok dsk2 =>
          rw [h4] at he
          dsimp only at he
          rcases hcp : create_process_as_user_w os token app2 cmd2 none none
              false 0 none dir2 ⟨104, dsk2⟩ ⟨0, 0⟩ with ⟨r, t⟩
          rw [hcp] at he
          have htr : t = OsCall.createProcess token.id app2 cmd2 dir2 dsk2 ::
              (if os.createOk = true then
                [OsCall.close os.threadHandle, OsCall.close os.processHandle,
                 OsCall.close token.id]
               else []) := by
            have h0 := create_process_as_user_w_trace os token app2 cmd2 none none
              false 0 none dir2 ⟨104, dsk2⟩ ⟨0, 0⟩
            rw [hcp] at h0
            exact h0
          have hmem : OsCall.createProcess tid a c d k ∈ t := by
            cases r <;> simpa using he
          rw [htr] at hmem
          cases hcr : os.createOk <;> rw [hcr] at hmem <;> simp at hmem <;>
            obtain ⟨h5, h6, h7, h8, h9⟩ := hmem <;>
            exact ⟨h6.trans (u16cstring_from_str_ok app app2 h1),
              h7.trans (u16cstring_from_str_ok cmd cmd2 h2),
              h8.trans (u16cstring_from_str_ok dir dir2 h3),
              h9.trans (u16cstring_from_str_ok dsk dsk2 h4)⟩

/-- C1: the claim says that when the OS process-creation call fails after the
token was transferred in, the token is still closed before the error is
returned.  The code evaluated at the failing input shows otherwise: with
`CreateProcessAsUserW` failing, `create_process_with_token` propagates the
creation error but the trace holds no close of the token handle (id 5) —
the token leaks on that path. -/
theorem c1_creation_failure_leaves_token_unclosed :
    (create_process_with_token osCreateFail ⟨5, access_flags, true⟩
        "C:\\tools\\app.exe" "C:\\tools\\app.exe -v" "C:\\tools" "").1
      = Except.error ("Unable to create process: " ++ "oserr")
    ∧ countClose 5
        (create_process_with_token osCreateFail ⟨5, access_flags, true⟩
          "C:\\tools\\app.exe" "C:\\tools\\app.exe -v" "C:\\tools" "").2 = 0 :=
  ⟨rfl, rfl⟩

/-- C2: on every successful launch, `create_process_as_user_w` closes the
spawned process's thread handle, its process handle and the consumed token,
in that order, before returning, and when those closes succeed the result is
`Except.ok ()` — the success value is unit, so the caller receives no handle
to the spawned process. -/
theorem c2_success_closes_thread_process_token (os : OS) (token : Handle)
    (app cmd dir : String) (si : STARTUPINFOW) (pinf : PROCESS_INFORMATION)
    (hcr : os.createOk = true) :
    (create_process_as_user_w os token app cmd none none false 0 none dir si
        pinf).2
      = [OsCall.createProcess token.id app cmd dir si.lpDesktop,
         OsCall.close os.threadHandle, OsCall.close os.processHandle,
         OsCall.close token.id]
    ∧ (os.closeOk os.threadHandle = true → os.closeOk os.processHandle = true →
        os.closeOk token.id = true →
        (create_process_as_user_w os token app cmd none none false 0 none dir si
            pinf).1 = Except.ok ()) := by
  constructor
  · rw [create_process_as_user_w_trace]
    simp [hcr]
  · intro h1 h2 h3
    simp [create_process_as_user_w, close_token, errList, hcr, h1, h2, h3]

/-- Witness for C2 at a concrete all-succeeding oracle. -/
theorem c2_witness :
    (create_process_as_user_w osAllOk ⟨5, access_flags, true⟩ "a" "a b" none none
        false 0 none "d" ⟨104, ""⟩ ⟨0, 0⟩).2
      = [OsCall.createProcess 5 "a" "a b" "d" "",
         OsCall.close 2, OsCall.close 3, OsCall.close 5]
    ∧ (create_process_as_user_w osAllOk ⟨5, access_flags, true⟩ "a" "a b" none none
        false 0 none "d" ⟨104, ""⟩ ⟨0, 0⟩).1 = Except.ok () := by
  have h := c2_success_closes_thread_process_token osAllOk ⟨5, access_flags, true⟩
    "a" "a b" "d" ⟨104, ""⟩ ⟨0, 0⟩ rfl
  exact ⟨h.1, h.2 rfl rfl rfl⟩

/-- C3 counterexample: with every OS call succeeding but the OS-supplied
linked token carrying no access rights and not being a primary token,
Admin-mode resolution still returns it — a handle lacking the query,
duplicate and assign-primary rights, contradicting the claim that resolution
never returns such a handle. -/
theorem c3_counterexample_admin_returns_rightless_token :
    (resolve_token osBadLinked Elevation.admin).1
      = Except.ok ⟨77, ⟨false, false, false⟩, false⟩
    ∧ (⟨77, ⟨false, false, false⟩, false⟩ : Handle).rights.query = false
    ∧ (⟨77, ⟨false, false, false⟩, false⟩ : Handle).primary = false :=
  ⟨rfl, rfl, rfl⟩

/-- C3 (amended): for the User and LocalSystem modes, token resolution either
fails or returns a primary token holding exactly the requested query,
duplicate and assign-primary rights; the Admin mode instead returns the
OS-supplied linked token unchanged, with whatever rights and token type the
OS gave that field. -/
theorem c3_amended_resolution_rights (os : OS) (h : Handle) :
    ((resolve_token os Elevation.user).1 = Except.ok h →
      h.rights = access_flags ∧ h.primary = true)
    ∧ ((resolve_token os Elevation.localSystem).1 = Except.ok h →
      h.rights = access_flags ∧ h.primary = true)
    ∧ ((resolve_token os Elevation.admin).1 = Except.ok h →
      h = ⟨os.linkedTokenHandle, os.linkedTokenRights, os.linkedTokenPrimary⟩) := by
  refine ⟨fun hok => ?_, fun hok => ?_, fun hok => resolve_token_admin_ok os h hok⟩
  · have h0 := resolve_token_user_ok os h hok
    subst h0
    exact ⟨rfl, rfl⟩
  · have h0 := resolve_token_local_system_ok os h hok
    subst h0
    exact ⟨rfl, rfl⟩

/-- Witness for the amended C3 at a concrete all-succeeding oracle. -/
theorem c3_amended_witness :
    (⟨12, access_flags, true⟩ : Handle).rights = access_flags
    ∧ (⟨12, access_flags, true⟩ : Handle).primary = true :=
  (c3_amended_resolution_rights osAllOk ⟨12, access_flags, true⟩).1 rfl

/-- C4: multi-failure helper steps aggregate every failure message in
occurrence order, newline-joined, into one error value: (a) in
`open_process_token`, a primary failure followed by a cleanup-close failure
yields both messages, primary first, joined by a newline; (b) in
`create_process_as_user_w`, after a successful creation, all three failing
cleanup closes surface in close order; (c) a single cleanup-close failure
occurring after the creation succeeded still surfaces as an error to the
caller. -/
theorem c4_error_aggregation (os : OS) (ph : Nat) (d : TOKEN_ACCESS_MASK)
    (token : Handle) (app cmd dir : String) (si : STARTUPINFOW)
    (pinf : PROCESS_INFORMATION) :
    (os.openProcessTokenOk = false → os.closeOk ph = false → os.closeOk 0 = true →
      (open_process_token os ph d).1 = Except.error
        ("Unable to open process token: " ++ os.openProcessTokenErr ++ "\n"
          ++ ("Unable to close handle: " ++ os.closeErr ph)))
    ∧ (os.createOk = true → os.closeOk os.threadHandle = false →
        os.closeOk os.processHandle = false → os.closeOk token.id = false →
        (create_process_as_user_w os token app cmd none none false 0 none dir si
            pinf).1 = Except.error
          (join_with_newlines
            ["Unable to close handle: " ++ os.closeErr os.threadHandle,
             "Unable to close handle: " ++ os.closeErr os.processHandle,
             "Unable to close handle: " ++ os.closeErr token.id]))
    ∧ (os.createOk = true → os.closeOk os.threadHandle = true →
        os.closeOk os.processHandle = true → os.closeOk token.id = false →
        (create_process_as_user_w os token app cmd none none false 0 none dir si
            pinf).1 = Except.error
          ("Unable to close handle: " ++ os.closeErr token.id)) := by
  refine ⟨fun h1 h2 h3 => ?_, fun h1 h2 h3 h4 => ?_, fun h1 h2 h3 h4 => ?_⟩
  · simp [open_process_token, close_token, errList, join_with_newlines, h1, h2, h3]
  · simp [create_process_as_user_w, close_token, errList, join_with_newlines,
      h1, h2, h3, h4]
  · simp [create_process_as_user_w, close_token, errList, join_with_newlines,
      h1, h2, h3, h4]

/-- Witness for C4 at concrete oracles exhibiting each failure pattern. -/
theorem c4_witness :
    (open_process_token osC4a 9 access_flags).1 = Except.error
      ("Unable to open process token: " ++ "tokerr" ++ "\n"
        ++ ("Unable to close handle: " ++ "close failed"))
    ∧ (create_process_as_user_w osC4b ⟨5, access_flags, true⟩ "a" "a b" none none
        false 0 none "d" ⟨104, ""⟩ ⟨0, 0⟩).1 = Except.error
      (join_with_newlines
        ["Unable to close handle: " ++ "close failed",
         "Unable to close handle: " ++ "close failed",
         "Unable to close handle: " ++ "close failed"])
    ∧ (create_process_as_user_w osC4c ⟨5, access_flags, true⟩ "a" "a b" none none
        false 0 none "d" ⟨104, ""⟩ ⟨0, 0⟩).1 = Except.error
      ("Unable to close handle: " ++ "close failed") :=
  ⟨(c4_error_aggregation osC4a 9 access_flags ⟨5, access_flags, true⟩ "a" "a b"
      "d" ⟨104, ""⟩ ⟨0, 0⟩).1 rfl rfl rfl,
   (c4_error_aggregation osC4b 9 access_flags ⟨5, access_flags, true⟩ "a" "a b"
      "d" ⟨104, ""⟩ ⟨0, 0⟩).2.1 rfl rfl rfl rfl,
   (c4_error_aggregation osC4c 9 access_flags ⟨5, access_flags, true⟩ "a" "a b"
      "d" ⟨104, ""⟩ ⟨0, 0⟩).2.2 rfl rfl rfl rfl⟩

/-- C5: when the OS linked-token query fails in Admin-mode resolution, the
operation returns an error whose text mentions "elevate", and the supplied
user token is still closed by the query operation on that failure path. -/
theorem c5_admin_query_failure (os : OS) (token : Handle)
    (hq : os.getTokenInfoOk = false) :
    (∃ msg, (add_admin_privileges_to_token os token).1 = Except.error msg
      ∧ mentions "elevate" msg)
    ∧ OsCall.close token.id ∈ (add_admin_privileges_to_token os token).2 := by
  constructor
  · obtain ⟨e, he⟩ := add_admin_fail_msg os token hq
    exact ⟨_, he, mentions_elevate e⟩
  · rw [add_admin_trace]
    simp

/-- Witness for C5 at a concrete oracle whose linked-token query fails. -/
theorem c5_witness :
    (∃ msg, (add_admin_privileges_to_token osC5 ⟨5, access_flags, true⟩).1
        = Except.error msg ∧ mentions "elevate" msg)
    ∧ OsCall.close 5 ∈ (add_admin_privileges_to_token osC5 ⟨5, access_flags, true⟩).2 :=
  c5_admin_query_failure osC5 ⟨5, access_flags, true⟩ rfl

/-- C6: when the OS duplication step fails, `duplicate_token_ex` closes the
(nonzero) source handle exactly once — not zero times and not twice — and
the returned error mentions the underlying platform error text. -/
theorem c6_duplicate_failure (os : OS) (src : Handle) (d : TOKEN_ACCESS_MASK)
    (a : Option Unit) (lvl : SECURITY_IMPERSONATION_LEVEL) (ty : TOKEN_TYPE)
    (hd : os.duplicateOk = false) (hnz : src.id ≠ 0) :
    countClose src.id (duplicate_token_ex os src d a lvl ty).2 = 1
    ∧ ∃ msg, (duplicate_token_ex os src d a lvl ty).1 = Except.error msg
        ∧ mentions os.duplicateErr msg := by
  constructor
  · rw [duplicate_token_ex_trace, if_neg (by simp [hd])]
    have hnz2 : ¬((0 : Nat) = src.id) := fun hh => hnz hh.symm
    simp [countClose, List.countP_cons, hnz2]
  · obtain ⟨post, hpost⟩ := duplicate_token_ex_fail_msg os src d a lvl ty hd
    exact ⟨_, hpost, "Unable to duplicate token: ", post, rfl⟩

/-- Witness for C6 at a concrete oracle whose duplication fails. -/
theorem c6_witness :
    countClose 7 (duplicate_token_ex osC6 ⟨7, access_flags, true⟩ access_flags none
      SECURITY_IMPERSONATION_LEVEL.securityImpersonation TOKEN_TYPE.tokenPrimary).2 = 1
    ∧ ∃ msg, (duplicate_token_ex osC6 ⟨7, access_flags, true⟩ access_flags none
        SECURITY_IMPERSONATION_LEVEL.securityImpersonation
        TOKEN_TYPE.tokenPrimary).1 = Except.error msg
        ∧ mentions osC6.duplicateErr msg :=
  c6_duplicate_failure osC6 ⟨7, access_flags, true⟩ access_flags none
    SECURITY_IMPERSONATION_LEVEL.securityImpersonation TOKEN_TYPE.tokenPrimary
    rfl (by decide)

/-- C7: when the process literally named "winlogon" is absent, a
LocalSystem-mode `run` returns the lookup error and its OS-call trace is
empty — in particular neither `open_process`, `open_process_token` nor
`duplicate_token_ex` is invoked. -/
theorem c7_winlogon_absent (os : OS) (b : ProcessBuilder)
    (he : b.elevation = Elevation.localSystem)
    (hl : os.processLookup "winlogon" = none) :
    (ProcessBuilder.run os b).1
      = Except.error ("No running processes by the name: " ++ "winlogon")
    ∧ (ProcessBuilder.run os b).2 = [] := by
  unfold ProcessBuilder.run resolve_token
  rw [he]
  simp [get_process_pid, hl]

/-- Witness for C7 at a concrete oracle with no winlogon process. -/
theorem c7_witness :
    (ProcessBuilder.run osC7 bC7).1
      = Except.error ("No running processes by the name: " ++ "winlogon")
    ∧ (ProcessBuilder.run osC7 bC7).2 = [] :=
  c7_winlogon_absent osC7 bC7 rfl rfl

/-- C8: every `CreateProcessAsUserW` call made by `run` receives an
application name equal to the path, a command line equal to the path, a
single space, then the args — with no quoting or escaping — a directory
equal to the builder's directory, and a desktop name that is "" for
`Desktop.default` and exactly the literal `WinSta0\Winlogon` for
`Desktop.secure`. -/
theorem c8_run_creation_parameters (os : OS) (b : ProcessBuilder)
    (tid : Nat) (a c d k : String)
    (he : OsCall.createProcess tid a c d k ∈ (ProcessBuilder.run os b).2) :
    a = b.path ∧ c = b.path ++ " " ++ b.args ∧ d = b.directory
    ∧ (b.desktop = Desktop.default → k = "")
    ∧ (b.desktop = Desktop.secure → k = "WinSta0\\Winlogon") := by
  unfold ProcessBuilder.run at he
  dsimp only at he
  rcases hr : resolve_token os b.elevation with ⟨r, t⟩
  rw [hr] at he
  cases r with
  | error e =>
    dsimp only at he
    have h0 := resolve_token_no_create os b.elevation _ (by rw [hr]; exact he)
    simp [isCreate] at h0
  | ok token =>
    dsimp only at he
    rcases List.mem_append.mp he with he2 | he2
    · have h0 := resolve_token_no_create os b.elevation _ (by rw [hr]; exact he2)
      simp [isCreate] at h0
    · have hev := create_process_with_token_event os token b.path
        (b.path ++ " " ++ b.args) b.directory _ tid a c d k he2
      refine ⟨hev.1, hev.2.1, hev.2.2.1, fun hd => ?_, fun hd => ?_⟩
      · rw [hev.2.2.2, hd]
      · rw [hev.2.2.2, hd]

/-- Witness for C8: the spec's end-to-end User-mode scenario at the
all-succeeding oracle. -/
theorem c8_witness :
    "C:\\tools\\app.exe -v" = bC8.path ++ " " ++ bC8.args
    ∧ (bC8.desktop = Desktop.default → ("" : String) = "") := by
  have h := c8_run_creation_parameters osAllOk bC8 12 "C:\\tools\\app.exe"
    "C:\\tools\\app.exe -v" "C:\\tools" "" (by decide)
  exact ⟨h.2.1, h.2.2.2.1⟩

/-- C9 counterexample: with every OS call succeeding, the LocalSystem path
also performs a token duplication as its final step — its trace ends with the
`DuplicateTokenEx` call (and the close of that call's source handle) and it
returns the freshly duplicated handle — so the User path is not the only
strategy whose final step duplicates. -/
theorem c9_counterexample_local_system_ends_in_duplication :
    (resolve_token osAllOk Elevation.localSystem).1
      = Except.ok ⟨12, access_flags, true⟩
    ∧ (resolve_token osAllOk Elevation.localSystem).2
      = [OsCall.openProcess 4, OsCall.openProcessToken 11, OsCall.close 11,
         OsCall.duplicateToken 21, OsCall.close 21] :=
  ⟨rfl, rfl⟩

/-- C9 (amended): the Admin transformation performs no token duplication at
all — its OS calls are exactly the linked-token query and the close of the
supplied token — and on success it returns the linked-token field of the
query buffer directly, already owned; the User and the LocalSystem
strategies, by contrast, both finish by duplicating: any token either
returns is the handle produced by `DuplicateTokenEx`. -/
theorem c9_amended_admin_no_reduplication (os : OS) (token : Handle) (h : Handle) :
    ((add_admin_privileges_to_token os token).2
      = [OsCall.getTokenInfo token.id, OsCall.close token.id])
    ∧ ((add_admin_privileges_to_token os token).1 = Except.ok h →
        h = ⟨os.linkedTokenHandle, os.linkedTokenRights, os.linkedTokenPrimary⟩)
    ∧ ((resolve_token os Elevation.user).1 = Except.ok h →
        h = ⟨os.duplicateHandle, access_flags, true⟩)
    ∧ ((resolve_token os Elevation.localSystem).1 = Except.ok h →
        h = ⟨os.duplicateHandle, access_flags, true⟩) :=
  ⟨add_admin_trace os token, add_admin_privileges_ok_shape os token h,
   resolve_token_user_ok os h, resolve_token_local_system_ok os h⟩

/-- Witness for the amended C9 at the all-succeeding oracle. -/
theorem c9_witness :
    (⟨77, ⟨true, true, true⟩, true⟩ : Handle)
      = ⟨osAllOk.linkedTokenHandle, osAllOk.linkedTokenRights,
         osAllOk.linkedTokenPrimary⟩
    ∧ (⟨12, access_flags, true⟩ : Handle)
      = ⟨osAllOk.duplicateHandle, access_flags, true⟩ := by
  have h1 := (c9_amended_admin_no_reduplication osAllOk ⟨31, access_flags, true⟩
    ⟨77, ⟨true, true, true⟩, true⟩).2.1 rfl
  have h2 := (c9_amended_admin_no_reduplication osAllOk ⟨31, access_flags, true⟩
    ⟨12, access_flags, true⟩).2.2.2 rfl
  exact ⟨h1, h2⟩

/-- C10: `get_token_information` closes the supplied token handle exactly
once on every outcome, success as well as failure, and therefore so does
`add_admin_privileges_to_token`; after a successful Admin elevation the
intermediate user token is thus already closed and must not be used or
closed again. -/
theorem c10_query_always_closes_token (os : OS) (token : Handle) :
    countClose token.id (get_token_information os token).2 = 1
    ∧ countClose token.id (add_admin_privileges_to_token os token).2 = 1 := by
  constructor
  · rw [get_token_information_trace]
    simp [countClose]
  · rw [add_admin_trace]
    simp [countClose]

end WinRun
